import Mathlib

/-!
Shallow embedding of the data-cleaning and KPI-aggregation pipeline of
`dashboard.py` (AI-Sales-Insights-Generator).

Text (column names, cell text, report lines) is modelled as lists of
character codes, numeric cell values as rationals, dates as explicit
year/month/day triples, and the pandas coercions (`errors="coerce"`)
as `Option`-valued parsers.  Fatal `st.error(...); st.stop()` paths are
modelled as `Except` errors.
-/

instance {ε α : Type} [DecidableEq ε] [DecidableEq α] :
    DecidableEq (Except ε α) := fun a b =>
  match a, b with
  | .error e, .error e' =>
    if h : e = e' then .isTrue (by rw [h]) else .isFalse (by simp [h])
  | .error _, .ok _ => .isFalse (by simp)
  | .ok _, .error _ => .isFalse (by simp)
  | .ok x, .ok y =>
    if h : x = y then .isTrue (by rw [h]) else .isFalse (by simp [h])

namespace Sales

/-- A piece of text, modelled as the list of its character codes. -/
abbrev Str := List Nat

/-- Character codes of a Lean string literal (used to write concrete names). -/
def strLit (s : String) : Str := s.toList.map (fun c => c.toNat)

/-- Python `str.lower` on one (ASCII) character code. -/
def lowerChar (c : Nat) : Nat := if 65 ≤ c ∧ c ≤ 90 then c + 32 else c

/-- Python whitespace, as trimmed by `str.strip`. -/
def isWs (c : Nat) : Bool := c = 32 || c = 9 || c = 10 || c = 13 || c = 11 || c = 12

/-- `s.lower()` -/
def pyLower (s : Str) : Str := s.map lowerChar

/-- `s.strip()` -/
def pyStrip (s : Str) : Str := (((s.dropWhile isWs).reverse).dropWhile isWs).reverse

/-- `s.replace(" ", "_")` -/
def replSpace (s : Str) : Str := s.map (fun c => if c = 32 then 95 else c)

/-- dashboard.py line 23: the column-name canonicalization
`c.lower().strip().replace(" ", "_")`. -/
def canon (s : Str) : Str := replSpace (pyStrip (pyLower s))

/-- A calendar date (what `pd.to_datetime` extracts from a parseable cell). -/
structure Date where
  year : Nat
  month : Nat
  day : Nat
deriving DecidableEq, Repr

/-- A raw CSV cell, classified by what the pandas coercions can extract
from it: a date-parseable value, a numeric value, free text, or an
empty/unparsable-as-anything cell. -/
inductive Cell
  | date (y m d : Nat)
  | num (q : ℚ)
  | text (s : Str)
  | empty
deriving DecidableEq, Repr

/-- `pd.to_datetime(x, errors="coerce")` on one cell: an unparsable
value becomes missing (`none`, i.e. NaT). -/
def toDatetime : Cell → Option Date
  | .date y m d => some ⟨y, m, d⟩
  | _ => none

/-- `pd.to_numeric(x, errors="coerce")` on one cell: an unparsable
value becomes missing (`none`, i.e. NaN). -/
def toNumeric : Cell → Option ℚ
  | .num q => some q
  | _ => none

/-- One source row: a mapping from column name to raw cell value. -/
abbrev RawRecord := List (Str × Cell)

/-- The loaded CSV: a header row plus the data rows. -/
structure RawTable where
  header : List Str
  rows : List RawRecord
deriving DecidableEq, Repr

/-- Cell of a record under a column name (first match). -/
def getCell (r : RawRecord) (k : Str) : Cell := (r.lookup k).getD .empty

/-- Rename every column via the canonicalization (dashboard.py line 23):
`df.columns = [c.lower().strip().replace(" ", "_") for c in df.columns]`. -/
def canonTable (t : RawTable) : RawTable where
  header := t.header.map canon
  rows := t.rows.map (fun r => r.map (fun p => (canon p.1, p.2)))

def dateCol : Str := strLit ("date")
def itemsCol : Str := strLit ("total_items")
def costCol : Str := strLit ("total_cost")
def productCol : Str := strLit ("product")
def cityCol : Str := strLit ("city")

/-- A normalized transaction: one row of `df_clean`.  `product` and
`city` carry the raw cell passed through verbatim (meaningful only when
the corresponding column exists in the table). -/
structure Txn where
  date : Date
  quantity : ℚ
  revenue : ℚ
  product : Cell
  city : Cell
deriving DecidableEq, Repr

/-- The two fatal `st.error(...); st.stop()` paths of
`load_and_clean_data` plus the loader-level one, by missing column. -/
inductive SchemaError
  | missingDate
  | missingItems
  | missingCost
deriving DecidableEq, Repr

/-- The cleaned table: which optional columns exist, plus the rows that
survived `dropna(subset=["date", "quantity", "revenue"])`. -/
structure CleanData where
  hasProduct : Bool
  hasCity : Bool
  rows : List Txn
deriving DecidableEq, Repr

/-- Row-level outcome of the coercions of dashboard.py lines 27 and 35
followed by the `dropna` of line 51: the row yields a `Txn` exactly when
`date`, `total_items` (quantity) and `total_cost` (revenue) all parse;
`product` and `city` pass through verbatim. -/
def parseRow (r : RawRecord) : Option Txn :=
  match toDatetime (getCell r dateCol), toNumeric (getCell r itemsCol),
      toNumeric (getCell r costCol) with
  | some d, some q, some rev =>
    some { date := d, quantity := q, revenue := rev,
           product := getCell r productCol, city := getCell r cityCol }
  | _, _, _ => none

/-- `load_and_clean_data` (dashboard.py lines 19-56): canonicalize the
column names, fail fatally if `date`, `total_items` or `total_cost` is
absent (in that order, matching lines 26-48), coerce the three required
columns, and drop every row in which any of them failed to parse. -/
def load_and_clean_data (t : RawTable) : Except SchemaError CleanData :=
  let t' := canonTable t
  if dateCol ∈ t'.header then
    if itemsCol ∈ t'.header then
      if costCol ∈ t'.header then
        .ok { hasProduct := productCol ∈ t'.header,
              hasCity := cityCol ∈ t'.header,
              rows := t'.rows.filterMap parseRow }
      else .error .missingCost
    else .error .missingItems
  else .error .missingDate

/-- Little-endian decimal digits of `n`, by fuelled structural
recursion (empty for 0; `fuel ≥ n` suffices). -/
def digitsRev : Nat → Nat → List Nat
  | 0, _ => []
  | _ + 1, 0 => []
  | fuel + 1, n => n % 10 :: digitsRev fuel (n / 10)

/-- Big-endian decimal digit character codes of `n` (empty for 0). -/
def natDigits (n : Nat) : Str := ((digitsRev n n).map (· + 48)).reverse

/-- Digits of `n` left-padded with zeros to length `len`. -/
def padZero (n len : Nat) : Str :=
  List.replicate (len - (natDigits n).length) 48 ++ natDigits n

/-- Decimal rendering of `n` (Python `str` of an `int`). -/
def natStr (n : Nat) : Str := padZero n 1

/-- dashboard.py line 54: `df["date"].dt.to_period("M").astype(str)` —
truncation of a date to its calendar month, formatted `YYYY-MM` with a
zero-padded four-digit year and two-digit month. -/
def year_month (d : Date) : Str := padZero d.year 4 ++ 45 :: padZero d.month 2

/-- The derived `year_month` field of a transaction. -/
def ymOf (t : Txn) : Str := year_month t.date

/-- One step of grouped summation: add `v` under key `k` in an
association list kept sorted ascending by `lt` (pandas `groupby` with
its default `sort=True` keeps group keys ascending). -/
def insertAdd {κ : Type} [DecidableEq κ] (lt : κ → κ → Bool) (k : κ) (v : ℚ) :
    List (κ × ℚ) → List (κ × ℚ)
  | [] => [(k, v)]
  | (k', v') :: rest =>
    if lt k k' then (k, v) :: (k', v') :: rest
    else if k = k' then (k', v' + v) :: rest
    else (k', v') :: insertAdd lt k v rest

/-- `df.groupby(col)["revenue"].sum()`: per-key revenue sums, keys
ascending by `lt`. -/
def groupSumBy {κ : Type} [DecidableEq κ] (lt : κ → κ → Bool)
    (key : Txn → κ) (rows : List Txn) : List (κ × ℚ) :=
  rows.foldr (fun t acc => insertAdd lt (key t) t.revenue acc) []

/-- Sum of the values stored under key `k` in an association list. -/
def valueSum {κ : Type} [DecidableEq κ] (k : κ) : List (κ × ℚ) → ℚ
  | [] => 0
  | (k', v) :: rest => (if k' = k then v else 0) + valueSum k rest

/-- Total revenue of the transactions whose `key` field equals `k`. -/
def revSumBy {κ : Type} [DecidableEq κ] (key : Txn → κ) (k : κ) :
    List Txn → ℚ
  | [] => 0
  | t :: rest => (if key t = k then t.revenue else 0) + revSumBy key k rest

/-- An injective encoding of cells; its lexicographic order stands for
pandas' internal ordering of group labels. -/
def cellCode : Cell → Str
  | .date y m d => 0 :: y :: m :: [d]
  | .num q => 1 :: q.num.toNat :: (-q.num).toNat :: [q.den]
  | .text s => 2 :: s
  | .empty => [3]

/-- Ascending order on group labels. -/
def cellLt (a b : Cell) : Bool := decide (cellCode a < cellCode b)

/-- `Series.sort_values(ascending=False)`: pandas (`nargsort`) computes
an ascending argsort of the values and, for `ascending=False`, reverses
the resulting indexer (`indexer = indexer[::-1]`).  The underlying numpy
`kind='quicksort'` argsort has unspecified tie order in general and is a
plain insertion sort (hence stable) below numpy's small-array cutoff;
the ascending pass is modelled accordingly.  The reversal means ties
leave the descending sort in reverse of their input order — the sort is
not stable. -/
def sortValuesDesc (l : List (Cell × ℚ)) : List (Cell × ℚ) :=
  (l.insertionSort (fun a b => a.2 ≤ b.2)).reverse

/-- `df_clean["revenue"].sum()` (dashboard.py line 62). -/
def total_revenue (rows : List Txn) : ℚ := (rows.map Txn.revenue).sum

/-- `df_clean.shape[0]` (dashboard.py line 63). -/
def total_transactions (rows : List Txn) : Nat := rows.length

/-- `Series.mean()`: sum divided by count; on an empty series pandas
yields NaN (here `none`) rather than raising. -/
def seriesMean (xs : List ℚ) : Option ℚ :=
  if xs.length = 0 then none else some (xs.sum / xs.length)

/-- `df_clean["revenue"].mean()` (dashboard.py line 64). -/
def avg_order_value (rows : List Txn) : Option ℚ :=
  seriesMean (rows.map Txn.revenue)

/-- `df_clean["quantity"].sum()` (dashboard.py line 65). -/
def total_items_sold (rows : List Txn) : ℚ := (rows.map Txn.quantity).sum

/-- A pandas runtime error at aggregation time. -/
inductive PdError
  | keyError (col : Str)
deriving DecidableEq, Repr

/-- dashboard.py lines 67-72:
`df_clean.groupby("product")["revenue"].sum().sort_values(ascending=False).head(5)`.
There is no presence guard: on a table without a `product` column,
`groupby` raises `KeyError("product")`. -/
def revenue_by_product (df : CleanData) : Except PdError (List (Cell × ℚ)) :=
  if df.hasProduct then
    .ok ((sortValuesDesc (groupSumBy cellLt Txn.product df.rows)).take 5)
  else .error (.keyError productCol)

/-- dashboard.py lines 74-81: the same aggregation for `city`, guarded
by `if "city" in df_clean.columns`; `None` when the column is absent. -/
def revenue_by_city (df : CleanData) : Option (List (Cell × ℚ)) :=
  if df.hasCity then
    some ((sortValuesDesc (groupSumBy cellLt Txn.city df.rows)).take 5)
  else none

/-- dashboard.py lines 83-87:
`df_clean.groupby("year_month")["revenue"].sum().sort_index()`. -/
def revenue_by_month (rows : List Txn) : List (Str × ℚ) :=
  (groupSumBy (fun a b => decide (a < b)) ymOf rows).insertionSort
    (fun a b => a.1 ≤ b.1)

/-- The aggregate result object computed at dashboard startup
(dashboard.py lines 62-87) and consumed by `build_kpi_summary_text`. -/
structure KPISummary where
  total_revenue : ℚ
  total_transactions : Nat
  avg_order_value : Option ℚ
  total_items_sold : ℚ
  top_products : List (Cell × ℚ)
  top_cities : Option (List (Cell × ℚ))
  by_month : List (Str × ℚ)
deriving DecidableEq, Repr

/-- The module-level aggregation over `df_clean` (dashboard.py lines
62-87).  The unguarded `groupby("product")` can abort the whole script
with a `KeyError` before any KPI is produced. -/
def computeKPIs (df : CleanData) : Except PdError KPISummary :=
  match revenue_by_product df with
  | .error e => .error e
  | .ok tp =>
    .ok { total_revenue := total_revenue df.rows
          total_transactions := total_transactions df.rows
          avg_order_value := avg_order_value df.rows
          total_items_sold := total_items_sold df.rows
          top_products := tp
          top_cities := revenue_by_city df
          by_month := revenue_by_month df.rows }

/-- The sidebar sentinel selection `"All"`. -/
def allChoice : Cell := .text (strLit ("All"))

/-- dashboard.py lines 132-135:
`df_filtered = df_clean[df_clean["city"] == selected_city]` when a
concrete city is selected and the column exists, else a copy of
`df_clean`. -/
def df_filtered (df : CleanData) (selected : Cell) : List Txn :=
  if selected ≠ allChoice ∧ df.hasCity then
    df.rows.filter (fun t => decide (t.city = selected))
  else df.rows

/-- dashboard.py lines 138-142: the monthly revenue series recomputed
on the filtered frame. -/
def filtered_revenue_by_month (df : CleanData) (selected : Cell) :
    List (Str × ℚ) :=
  revenue_by_month (df_filtered df selected)

/-- dashboard.py lines 144-149: the top-products series recomputed on
the filtered frame (`groupby("product")`, again unguarded). -/
def filtered_revenue_by_product (df : CleanData) (selected : Cell) :
    Except PdError (List (Cell × ℚ)) :=
  if df.hasProduct then
    .ok ((sortValuesDesc
      (groupSumBy cellLt Txn.product (df_filtered df selected))).take 5)
  else .error (.keyError productCol)

/-- What the dashboard presents after a filter selection (dashboard.py
lines 132-205): the module-level KPI summary — computed once from the
unfiltered `df_clean` — plus the two recomputed filtered series. -/
structure DashView where
  summary : KPISummary
  filteredByMonth : List (Str × ℚ)
  filteredTopProducts : List (Cell × ℚ)
deriving DecidableEq, Repr

/-- The dashboard state reached for a given filter selection. -/
def dashboard_view (df : CleanData) (selected : Cell) :
    Except PdError DashView :=
  match computeKPIs df with
  | .error e => .error e
  | .ok s =>
    match filtered_revenue_by_product df selected with
    | .error e => .error e
    | .ok fp => .ok ⟨s, filtered_revenue_by_month df selected, fp⟩

/-- Thousands grouping on a reversed digit string: a comma after every
third digit counted from the right. -/
def group3 : Str → Str
  | a :: b :: c :: d :: rest => a :: b :: c :: 44 :: group3 (d :: rest)
  | l => l

/-- Insert thousands separators into a digit string. -/
def groupDigits (ds : Str) : Str := (group3 ds.reverse).reverse

/-- Python format `:,.{dec}f` on a rational: sign, thousands-grouped
integer part, and exactly `dec` fractional digits (no point when
`dec = 0`). -/
def fmtFixed (dec : Nat) (q : ℚ) : Str :=
  (if round (q * (10 : ℚ) ^ dec) < 0 then [45] else []) ++
    groupDigits (natStr ((round (q * (10 : ℚ) ^ dec)).natAbs / 10 ^ dec)) ++
    (if dec = 0 then []
     else 46 :: padZero ((round (q * (10 : ℚ) ^ dec)).natAbs % 10 ^ dec) dec)

/-- `f"{x:,.2f}"` — currency rendering. -/
def fmtCurrency (q : ℚ) : Str := fmtFixed 2 q

/-- `f"{x:,.0f}"` — grouped whole-number rendering. -/
def fmtCount (q : ℚ) : Str := fmtFixed 0 q

/-- `f"{x:,.2f}"` where `x` may be pandas' NaN (the mean of an empty
revenue series); Python renders NaN as `"nan"`. -/
def fmtMean : Option ℚ → Str
  | some q => fmtCurrency q
  | none => strLit ("nan")

/-- Rendering of a group label inside an f-string (`f"- {product}: ..."`).
Text labels — the only kind the spec exercises — render verbatim; the
other kinds get a fixed deterministic rendering. -/
def cellText : Cell → Str
  | .text s => s
  | .num q => (if q < 0 then [45] else []) ++ natStr (q.num.natAbs / q.den)
  | .date y m d => year_month ⟨y, m, d⟩
  | .empty => []

/-- dashboard.py lines 91-112: `build_kpi_summary_text` — the
deterministic plain-text report handed to the narrative collaborator,
lines joined with `"\n"`. -/
def build_kpi_summary_text (s : KPISummary) : Str :=
  List.intercalate [10]
    (strLit ("=== High-Level Sales Summary ===") ::
     (strLit ("Total revenue: $") ++ fmtCurrency s.total_revenue) ::
     (strLit ("Total transactions: ") ++ natStr s.total_transactions) ::
     (strLit ("Average order value: $") ++ fmtMean s.avg_order_value) ::
     (strLit ("Total items sold: ") ++ fmtCount s.total_items_sold) ::
     (10 :: strLit ("=== Top 5 Products by Revenue ===")) ::
     (s.top_products.map
       (fun e => strLit ("- ") ++ cellText e.1 ++ strLit (": $") ++
         fmtCurrency e.2) ++
      (match s.top_cities with
       | none => []
       | some tc =>
         (10 :: strLit ("=== Top 5 Cities by Revenue ===")) ::
           tc.map (fun e => strLit ("- ") ++ cellText e.1 ++ strLit (": $") ++
             fmtCurrency e.2)) ++
      ((10 :: strLit ("=== Monthly Revenue (chronological) ===")) ::
        s.by_month.map (fun e => strLit ("- ") ++ e.1 ++ strLit (": $") ++
          fmtCurrency e.2))))

instance : IsTotal (Cell × ℚ) (fun a b => a.2 ≤ b.2) :=
  ⟨fun a b => le_total a.2 b.2⟩

instance : IsTrans (Cell × ℚ) (fun a b => a.2 ≤ b.2) :=
  ⟨fun _ _ _ h1 h2 => le_trans h1 h2⟩

instance : IsTotal (Str × ℚ) (fun a b => a.1 ≤ b.1) :=
  ⟨fun a b => le_total a.1 b.1⟩

instance : IsTrans (Str × ℚ) (fun a b => a.1 ≤ b.1) :=
  ⟨fun _ _ _ h1 h2 => le_trans h1 h2⟩

/-! Concrete inputs used by the witnesses and counterexamples below.
`txA`/`txB` are the two rows of the spec's worked example. -/

def txA : Txn :=
  ⟨⟨2024, 1, 15⟩, 3, 30, .text (strLit ("A")), .text (strLit ("X"))⟩

def txB : Txn :=
  ⟨⟨2024, 1, 20⟩, 2, 20, .text (strLit ("B")), .text (strLit ("Y"))⟩

def txC : Txn :=
  ⟨⟨2024, 2, 5⟩, 1, 20, .text (strLit ("C")), .text (strLit ("X"))⟩

def exRow1 : RawRecord :=
  [(dateCol, .date 2024 1 15), (itemsCol, .num 3), (costCol, .num 30),
   (productCol, .text (strLit ("A"))), (cityCol, .text (strLit ("X")))]

def exRow2 : RawRecord :=
  [(dateCol, .date 2024 1 20), (itemsCol, .num 2), (costCol, .num 20),
   (productCol, .text (strLit ("B"))), (cityCol, .text (strLit ("Y")))]

def exTable : RawTable :=
  ⟨[dateCol, itemsCol, costCol, productCol, cityCol], [exRow1, exRow2]⟩

def exClean : CleanData := ⟨true, true, [txA, txB]⟩

/-- The worked-example table with arbitrary casing/whitespace in the
column names (the rows carry the same messy keys). -/
def messyTable : RawTable :=
  ⟨[strLit ("  Date"), strLit ("Total Items"), strLit ("TOTAL COST"),
    strLit ("Product "), strLit ("City")],
   [[(strLit ("  Date"), .date 2024 1 15), (strLit ("Total Items"), .num 3),
     (strLit ("TOTAL COST"), .num 30), (strLit ("Product "), .text (strLit ("A"))),
     (strLit ("City"), .text (strLit ("X")))],
    [(strLit ("  Date"), .date 2024 1 20), (strLit ("Total Items"), .num 2),
     (strLit ("TOTAL COST"), .num 20), (strLit ("Product "), .text (strLit ("B"))),
     (strLit ("City"), .text (strLit ("Y")))]]⟩

def noDateTable : RawTable := ⟨[itemsCol, costCol], []⟩

/-- A table whose item-count and cost columns use the names `items` and
`cost` instead of the exact `total_items`/`total_cost`. -/
def noItemsTable : RawTable :=
  ⟨[dateCol, strLit ("items"), strLit ("cost")],
   [[(dateCol, .date 2024 1 15), (strLit ("items"), .num 3),
     (strLit ("cost"), .num 30)]]⟩

def noCostTable : RawTable := ⟨[dateCol, itemsCol, strLit ("cost")], []⟩

def noProductClean : CleanData := ⟨false, true, [txA]⟩

def noCityClean : CleanData := ⟨true, false, [txA]⟩

def c2df : CleanData := ⟨true, true, [txA, txB]⟩

def c6df : CleanData := ⟨true, true, [txA, txB, txC]⟩

def cityX : Cell := .text (strLit ("X"))

def prodA : Cell := .text (strLit ("A"))

def prodB : Cell := .text (strLit ("B"))

def prodC : Cell := .text (strLit ("C"))

/-- The dashboard state expected for `c2df` with city `X` selected. -/
def c2view : DashView :=
  ⟨⟨50, 2, some 25, 5, [(prodA, 30), (prodB, 20)],
    some [(cityX, 30), (.text (strLit ("Y")), 20)], [(strLit ("2024-01"), 50)]⟩,
   [(strLit ("2024-01"), 30)], [(prodA, 30)]⟩

/-- A KPI summary with 1000 transactions (and otherwise empty data). -/
def s1000 : KPISummary := ⟨0, 1000, none, 0, [], none, []⟩

/-! Facts about the digit formatting helpers. -/

lemma lowerChar_idem (c : Nat) : lowerChar (lowerChar c) = lowerChar c := by
  unfold lowerChar
  split_ifs <;> omega

lemma map_id_of_mem {f : Nat → Nat} :
    ∀ l : Str, (∀ c ∈ l, f c = c) → l.map f = l := by
  intro l h
  induction l with
  | nil => rfl
  | cons a t ih => simp_all

lemma mem_pyStrip {s : Str} {c : Nat} (h : c ∈ pyStrip s) : c ∈ s := by
  unfold pyStrip at h
  rw [List.mem_reverse] at h
  have h1 := (@List.dropWhile_sublist _ ((s.dropWhile isWs).reverse) isWs).subset h
  rw [List.mem_reverse] at h1
  exact (@List.dropWhile_sublist _ s isWs).subset h1

lemma canon_chars {s : Str} {c : Nat} (h : c ∈ canon s) :
    lowerChar c = c ∧ c ≠ 32 := by
  unfold canon replSpace at h
  rw [List.mem_map] at h
  obtain ⟨d, hd, rfl⟩ := h
  have hd' : d ∈ pyLower s := mem_pyStrip hd
  unfold pyLower at hd'
  rw [List.mem_map] at hd'
  obtain ⟨e, _, rfl⟩ := hd'
  by_cases h32 : lowerChar e = 32
  · rw [h32]
    decide
  · rw [if_neg h32]
    exact ⟨lowerChar_idem e, h32⟩

lemma dropWhile_head_false {p : Nat → Bool} :
    ∀ (l : Str) (c : Nat), (l.dropWhile p).head? = some c → p c = false := by
  intro l
  induction l with
  | nil => intro c h; simp [List.dropWhile] at h
  | cons a t ih =>
    intro c h
    rw [List.dropWhile_cons] at h
    by_cases hpa : p a = true
    · rw [if_pos hpa] at h; exact ih c h
    · rw [if_neg hpa] at h
      simp only [List.head?_cons, Option.some.injEq] at h
      subst h
      simpa using hpa

lemma dropWhile_eq_self_of_head {p : Nat → Bool} {l : Str}
    (h : ∀ c, l.head? = some c → p c = false) : l.dropWhile p = l := by
  cases l with
  | nil => rfl
  | cons a t =>
    rw [List.dropWhile_cons, if_neg]
    simp [h a rfl]

lemma exists_append_dropWhile (p : Nat → Bool) :
    ∀ l : Str, ∃ pre, pre ++ l.dropWhile p = l := by
  intro l
  induction l with
  | nil => exact ⟨[], rfl⟩
  | cons a t ih =>
    rw [List.dropWhile_cons]
    by_cases hpa : p a = true
    · rw [if_pos hpa]
      obtain ⟨pre, hpre⟩ := ih
      exact ⟨a :: pre, by simp [hpre]⟩
    · rw [if_neg hpa]; exact ⟨[], rfl⟩

lemma getLast?_of_dropWhile {p : Nat → Bool} {l : Str} {c : Nat}
    (h : (l.dropWhile p).getLast? = some c) : l.getLast? = some c := by
  obtain ⟨pre, hpre⟩ := exists_append_dropWhile p l
  rw [← hpre, List.getLast?_append, h]
  rfl

lemma canon_head {s : Str} {c : Nat} (h : (canon s).head? = some c) :
    isWs c = false := by
  unfold canon replSpace at h
  rw [List.head?_map] at h
  obtain ⟨d, hd, rfl⟩ : ∃ d, (pyStrip (pyLower s)).head? = some d ∧
      (if d = 32 then 95 else d) = c := by
    cases hh : (pyStrip (pyLower s)).head? with
    | none => rw [hh] at h; simp at h
    | some d => rw [hh] at h; exact ⟨d, rfl, by simpa using h⟩
  unfold pyStrip at hd
  rw [List.head?_reverse] at hd
  have hd2 := getLast?_of_dropWhile hd
  rw [List.getLast?_reverse] at hd2
  have hws : isWs d = false := dropWhile_head_false _ d hd2
  have hd32 : d ≠ 32 := by intro h32; rw [h32] at hws; simp [isWs] at hws
  rw [if_neg hd32]
  exact hws

lemma canon_getLast {s : Str} {c : Nat} (h : (canon s).getLast? = some c) :
    isWs c = false := by
  unfold canon replSpace at h
  rw [← List.head?_reverse, ← List.map_reverse, List.head?_map] at h
  obtain ⟨d, hd, rfl⟩ : ∃ d, (pyStrip (pyLower s)).reverse.head? = some d ∧
      (if d = 32 then 95 else d) = c := by
    cases hh : (pyStrip (pyLower s)).reverse.head? with
    | none => rw [hh] at h; simp at h
    | some d => rw [hh] at h; exact ⟨d, rfl, by simpa using h⟩
  unfold pyStrip at hd
  rw [List.reverse_reverse] at hd
  have hws : isWs d = false := dropWhile_head_false _ d hd
  have hd32 : d ≠ 32 := by intro h32; rw [h32] at hws; simp [isWs] at hws
  rw [if_neg hd32]
  exact hws

lemma pyStrip_eq_self {l : Str}
    (hh : ∀ c, l.head? = some c → isWs c = false)
    (hl : ∀ c, l.getLast? = some c → isWs c = false) : pyStrip l = l := by
  unfold pyStrip
  rw [dropWhile_eq_self_of_head hh, dropWhile_eq_self_of_head, List.reverse_reverse]
  intro c hc
  rw [List.head?_reverse] at hc
  exact hl c hc

lemma pyLower_canon (s : Str) : pyLower (canon s) = canon s :=
  map_id_of_mem _ (fun _ hc => (canon_chars hc).1)

lemma replSpace_canon (s : Str) : replSpace (canon s) = canon s :=
  map_id_of_mem _ (fun _ hc => by rw [if_neg (canon_chars hc).2])

/-- The column-name canonicalization of dashboard.py line 23 is idempotent. -/
theorem canon_idem (s : Str) : canon (canon s) = canon s := by
  show replSpace (pyStrip (pyLower (canon s))) = canon s
  rw [pyLower_canon,
    pyStrip_eq_self (fun c hc => canon_head hc) (fun c hc => canon_getLast hc),
    replSpace_canon]

section GroupingLemmas

variable {κ : Type} [DecidableEq κ] {lt : κ → κ → Bool}

lemma insertAdd_nil (k : κ) (v : ℚ) : insertAdd lt k v [] = [(k, v)] := rfl

lemma insertAdd_cons (k k' : κ) (v v' : ℚ) (rest : List (κ × ℚ)) :
    insertAdd lt k v ((k', v') :: rest) =
      if lt k k' then (k, v) :: (k', v') :: rest
      else if k = k' then (k', v' + v) :: rest
      else (k', v') :: insertAdd lt k v rest := rfl

lemma valueSum_insertAdd (k₀ k : κ) (v : ℚ) :
    ∀ l, valueSum k₀ (insertAdd lt k v l) =
      (if k = k₀ then v else 0) + valueSum k₀ l := by
  intro l
  induction l with
  | nil => simp [insertAdd_nil, valueSum]
  | cons e rest ih =>
    obtain ⟨k', v'⟩ := e
    rw [insertAdd_cons]
    by_cases h1 : lt k k' = true
    · rw [if_pos h1]
      simp only [valueSum]
    · rw [if_neg h1]
      by_cases h2 : k = k'
      · subst h2
        rw [if_pos rfl]
        simp only [valueSum]
        by_cases h3 : k = k₀
        · rw [if_pos h3, if_pos h3, if_pos h3]; ring
        · rw [if_neg h3, if_neg h3, if_neg h3]; ring
      · rw [if_neg h2]
        simp only [valueSum, ih]
        ring

lemma fst_of_mem_insertAdd (k : κ) (v : ℚ) :
    ∀ l (e : κ × ℚ), e ∈ insertAdd lt k v l →
      e.1 = k ∨ e.1 ∈ l.map Prod.fst := by
  intro l
  induction l with
  | nil => intro e he; rw [insertAdd_nil] at he; simp at he; simp [he]
  | cons hd rest ih =>
    obtain ⟨k', v'⟩ := hd
    intro e he
    rw [insertAdd_cons] at he
    by_cases h1 : lt k k' = true
    · rw [if_pos h1] at he
      simp only [List.mem_cons] at he
      rcases he with he | he | he
      · simp [he]
      · simp [he]
      · exact .inr (List.mem_map_of_mem Prod.fst (List.mem_cons_of_mem _ he))
    · rw [if_neg h1] at he
      by_cases h2 : k = k'
      · subst h2
        rw [if_pos rfl] at he
        simp only [List.mem_cons] at he
        rcases he with he | he
        · simp [he]
        · exact .inr (List.mem_map_of_mem Prod.fst (List.mem_cons_of_mem _ he))
      · rw [if_neg h2] at he
        simp only [List.mem_cons] at he
        rcases he with he | he
        · simp [he]
        · rcases ih e he with h | h
          · exact .inl h
          · refine .inr ?_
            rw [List.map_cons]
            exact List.mem_cons_of_mem _ h

lemma mem_fst_insertAdd_iff (k₀ k : κ) (v : ℚ) :
    ∀ l, k₀ ∈ (insertAdd lt k v l).map Prod.fst ↔
      k₀ = k ∨ k₀ ∈ l.map Prod.fst := by
  intro l
  induction l with
  | nil => simp [insertAdd_nil]
  | cons hd rest ih =>
    obtain ⟨k', v'⟩ := hd
    rw [insertAdd_cons]
    by_cases h1 : lt k k' = true
    · rw [if_pos h1]
      simp only [List.map_cons, List.mem_cons]
    · rw [if_neg h1]
      by_cases h2 : k = k'
      · subst h2
        rw [if_pos rfl]
        simp only [List.map_cons, List.mem_cons]
        tauto
      · rw [if_neg h2]
        simp only [List.map_cons, List.mem_cons, ih]
        tauto

lemma pairwise_insertAdd
    (htr : ∀ a b c, lt a b = true → lt b c = true → lt a c = true)
    (hconn : ∀ a b, a ≠ b → lt a b = true ∨ lt b a = true)
    (k : κ) (v : ℚ) :
    ∀ l, l.Pairwise (fun e e' : κ × ℚ => lt e.1 e'.1 = true) →
      (insertAdd lt k v l).Pairwise (fun e e' => lt e.1 e'.1 = true) := by
  intro l
  induction l with
  | nil => intro _; simp [insertAdd_nil]
  | cons hd rest ih =>
    obtain ⟨k', v'⟩ := hd
    intro hp
    rw [List.pairwise_cons] at hp
    obtain ⟨hhd, hrest⟩ := hp
    rw [insertAdd_cons]
    by_cases h1 : lt k k' = true
    · rw [if_pos h1]
      refine List.Pairwise.cons ?_ (List.Pairwise.cons hhd hrest)
      intro e he
      simp only [List.mem_cons] at he
      rcases he with he | he
      · simpa [he] using h1
      · exact htr _ _ _ h1 (hhd e he)
    · rw [if_neg h1]
      by_cases h2 : k = k'
      · subst h2
        rw [if_pos rfl]
        exact List.Pairwise.cons hhd hrest
      · rw [if_neg h2]
        refine List.Pairwise.cons ?_ (ih hrest)
        intro e he
        rcases fst_of_mem_insertAdd k v rest e he with h | h
        · rw [h]
          rcases hconn k k' h2 with hc | hc
          · exact absurd hc h1
          · exact hc
        · rw [List.mem_map] at h
          obtain ⟨y, hy, hye⟩ := h
          rw [← hye]
          exact hhd y hy

lemma valueSum_eq_zero_of_not_mem (k : κ) :
    ∀ l : List (κ × ℚ), k ∉ l.map Prod.fst → valueSum k l = 0 := by
  intro l
  induction l with
  | nil => intro _; rfl
  | cons hd rest ih =>
    obtain ⟨k', v'⟩ := hd
    intro h
    simp only [List.map_cons, List.mem_cons] at h
    push_neg at h
    simp only [valueSum, if_neg (Ne.symm h.1), ih h.2, add_zero, zero_add]

lemma valueSum_of_mem_pairwiseNe {k : κ} {v : ℚ} :
    ∀ l : List (κ × ℚ), l.Pairwise (fun e e' => e.1 ≠ e'.1) →
      (k, v) ∈ l → valueSum k l = v := by
  intro l
  induction l with
  | nil => intro _ h; cases h
  | cons hd rest ih =>
    obtain ⟨k', v'⟩ := hd
    intro hp hm
    rw [List.pairwise_cons] at hp
    simp only [List.mem_cons] at hm
    rcases hm with hm | hm
    · injection hm with h1 h2
      subst h1; subst h2
      have hnm : k ∉ rest.map Prod.fst := by
        rw [List.mem_map]
        rintro ⟨y, hy, hyk⟩
        exact hp.1 y hy hyk.symm
      simp [valueSum, valueSum_eq_zero_of_not_mem _ _ hnm]
    · have hne : k' ≠ k := hp.1 (k, v) hm
      simp only [valueSum, if_neg hne, zero_add]
      exact ih hp.2 hm

lemma groupSumBy_cons (key : Txn → κ) (t : Txn) (ts : List Txn) :
    groupSumBy lt key (t :: ts) =
      insertAdd lt (key t) t.revenue (groupSumBy lt key ts) := rfl

lemma valueSum_groupSumBy (key : Txn → κ) (k : κ) :
    ∀ rows, valueSum k (groupSumBy lt key rows) = revSumBy key k rows := by
  intro rows
  induction rows with
  | nil => rfl
  | cons t ts ih =>
    rw [groupSumBy_cons, valueSum_insertAdd, ih]
    rfl

lemma mem_fst_groupSumBy (key : Txn → κ) (k : κ) :
    ∀ rows, k ∈ (groupSumBy lt key rows).map Prod.fst ↔
      k ∈ rows.map key := by
  intro rows
  induction rows with
  | nil => simp [groupSumBy]
  | cons t ts ih =>
    rw [groupSumBy_cons, mem_fst_insertAdd_iff, ih]
    simp

lemma pairwise_groupSumBy
    (htr : ∀ a b c, lt a b = true → lt b c = true → lt a c = true)
    (hconn : ∀ a b, a ≠ b → lt a b = true ∨ lt b a = true)
    (key : Txn → κ) :
    ∀ rows, (groupSumBy lt key rows).Pairwise
      (fun e e' => lt e.1 e'.1 = true) := by
  intro rows
  induction rows with
  | nil => simp [groupSumBy]
  | cons t ts ih => exact pairwise_insertAdd htr hconn _ _ _ ih

lemma pairwiseNe_groupSumBy
    (htr : ∀ a b c, lt a b = true → lt b c = true → lt a c = true)
    (hconn : ∀ a b, a ≠ b → lt a b = true ∨ lt b a = true)
    (hirr : ∀ a, lt a a = false)
    (key : Txn → κ) (rows : List Txn) :
    (groupSumBy lt key rows).Pairwise (fun e e' => e.1 ≠ e'.1) := by
  refine (pairwise_groupSumBy htr hconn key rows).imp ?_
  intro a b hab heq
  rw [heq, hirr] at hab
  cases hab

lemma snd_of_mem_groupSumBy
    (htr : ∀ a b c, lt a b = true → lt b c = true → lt a c = true)
    (hconn : ∀ a b, a ≠ b → lt a b = true ∨ lt b a = true)
    (hirr : ∀ a, lt a a = false)
    (key : Txn → κ) {rows : List Txn} {k : κ} {v : ℚ}
    (h : (k, v) ∈ groupSumBy lt key rows) : v = revSumBy key k rows := by
  rw [← valueSum_groupSumBy key k rows]
  exact (valueSum_of_mem_pairwiseNe _
    (pairwiseNe_groupSumBy htr hconn hirr key rows) h).symm

lemma revSumBy_eq_filter_sum (key : Txn → κ) (k : κ) :
    ∀ rows, revSumBy key k rows =
      ((rows.filter (fun t => decide (key t = k))).map Txn.revenue).sum := by
  intro rows
  induction rows with
  | nil => rfl
  | cons t ts ih =>
    simp only [revSumBy, List.filter_cons]
    split_ifs with h <;> simp_all

end GroupingLemmas

lemma decideLt_trans {α : Type} [LinearOrder α] :
    ∀ a b c : α, decide (a < b) = true → decide (b < c) = true →
      decide (a < c) = true := by
  intro a b c h1 h2
  rw [decide_eq_true_eq] at h1 h2 ⊢
  exact lt_trans h1 h2

lemma decideLt_conn {α : Type} [LinearOrder α] :
    ∀ a b : α, a ≠ b → decide (a < b) = true ∨ decide (b < a) = true := by
  intro a b h
  rcases lt_or_gt_of_ne h with h' | h'
  · left; rw [decide_eq_true_eq]; exact h'
  · right; rw [decide_eq_true_eq]; exact h'

lemma decideLt_irrefl {α : Type} [LinearOrder α] (a : α) :
    decide (a < a) = false := by simp

lemma cellCode_inj : ∀ a b : Cell, cellCode a = cellCode b → a = b := by
  intro a b h
  cases a <;> cases b <;> simp [cellCode] at h ⊢ <;> try assumption
  obtain ⟨h1, h2, h3⟩ := h
  exact Rat.ext (by omega) h3

lemma cellLt_trans : ∀ a b c : Cell,
    cellLt a b = true → cellLt b c = true → cellLt a c = true := by
  intro a b c h1 h2
  unfold cellLt at *
  exact decideLt_trans _ _ _ h1 h2

lemma cellLt_conn : ∀ a b : Cell,
    a ≠ b → cellLt a b = true ∨ cellLt b a = true := by
  intro a b h
  unfold cellLt
  exact decideLt_conn _ _ (fun hc => h (cellCode_inj a b hc))

lemma cellLt_irrefl (a : Cell) : cellLt a a = false := by
  unfold cellLt
  exact decideLt_irrefl _

lemma digitsRev_eq : ∀ fuel n, n ≤ fuel → digitsRev fuel n = Nat.digits 10 n := by
  intro fuel
  induction fuel with
  | zero =>
    intro n hn
    have : n = 0 := by omega
    subst this
    simp [digitsRev]
  | succ f ih =>
    intro n hn
    cases n with
    | zero => simp [digitsRev]
    | succ m =>
      rw [show digitsRev (f + 1) (m + 1) =
          (m + 1) % 10 :: digitsRev f ((m + 1) / 10) from rfl]
      rw [ih ((m + 1) / 10) (by omega),
        Nat.digits_def' (by norm_num : 1 < 10) (Nat.succ_pos m)]

lemma natDigits_eq (n : Nat) :
    natDigits n = ((Nat.digits 10 n).map (· + 48)).reverse := by
  unfold natDigits
  rw [digitsRev_eq n n le_rfl]

lemma natDigits_length_le {n k : Nat} (h : n < 10 ^ k) :
    (natDigits n).length ≤ k := by
  rw [natDigits_eq]
  rw [List.length_reverse, List.length_map]
  rcases eq_or_ne n 0 with rfl | hn
  · simp
  · rw [Nat.digits_len 10 n (by norm_num) hn]
    have := Nat.log_lt_of_lt_pow hn h
    omega

lemma natDigits_mem {n : Nat} : ∀ c ∈ natDigits n, 48 ≤ c ∧ c ≤ 57 := by
  intro c hc
  rw [natDigits_eq] at hc
  rw [List.mem_reverse, List.mem_map] at hc
  obtain ⟨d, hd, rfl⟩ := hc
  have := Nat.digits_lt_base (by norm_num) hd
  omega

lemma padZero_length {n k : Nat} (h : n < 10 ^ k) :
    (padZero n k).length = k := by
  unfold padZero
  rw [List.length_append, List.length_replicate]
  have := natDigits_length_le h
  omega

lemma padZero_mem {n k : Nat} : ∀ c ∈ padZero n k, 48 ≤ c ∧ c ≤ 57 := by
  intro c hc
  unfold padZero at hc
  rw [List.mem_append] at hc
  rcases hc with hc | hc
  · rw [List.mem_replicate] at hc
    omega
  · exact natDigits_mem c hc

lemma natStr_mem {n : Nat} : ∀ c ∈ natStr n, 48 ≤ c ∧ c ≤ 57 := by
  intro c hc
  exact padZero_mem c hc

lemma group3_cons4 (a b c d : Nat) (rest : Str) :
    group3 (a :: b :: c :: d :: rest) =
      a :: b :: c :: 44 :: group3 (d :: rest) := rfl

lemma group3_eq_self_of_short :
    ∀ l : Str, (∀ (a b c d : ℕ) (rest : List ℕ),
      l = a :: b :: c :: d :: rest → False) → group3 l = l := by
  intro l h
  match l with
  | [] => rfl
  | [_] => rfl
  | [_, _] => rfl
  | [_, _, _] => rfl
  | a :: b :: c :: d :: rest => exact (h a b c d rest rfl).elim

lemma group3_chars : ∀ l : Str, ∀ c ∈ group3 l, c ∈ l ∨ c = 44 := by
  intro l
  induction l using group3.induct with
  | case1 a b cc d rest ih =>
    intro c hc
    rw [group3_cons4] at hc
    simp only [List.mem_cons] at hc ⊢
    rcases hc with rfl | rfl | rfl | rfl | hc
    · tauto
    · tauto
    · tauto
    · tauto
    · rcases ih c hc with h | h
      · simp only [List.mem_cons] at h
        tauto
      · tauto
  | case2 l h =>
    intro c hc
    rw [group3_eq_self_of_short l h] at hc
    exact .inl hc

lemma group3_filter : ∀ l : Str, (∀ c ∈ l, c ≠ 44) →
    (group3 l).filter (fun c => decide (c ≠ 44)) = l := by
  intro l
  induction l using group3.induct with
  | case1 a b cc d rest ih =>
    intro h
    rw [group3_cons4]
    have ha : a ≠ 44 := h a (by simp)
    have hb : b ≠ 44 := h b (by simp)
    have hcc : cc ≠ 44 := h cc (by simp)
    have hrec := ih (fun c hc => h c (by simp only [List.mem_cons] at hc ⊢; tauto))
    simp only [List.filter_cons, decide_eq_true_eq, ha, hb, hcc, if_true,
      decide_not]
    simp only [decide_not] at hrec
    simpa using hrec
  | case2 l h =>
    intro hl
    rw [group3_eq_self_of_short l h, List.filter_eq_self]
    intro c hc
    simpa using hl c hc

lemma group3_has44 (a b c d : Nat) (rest : Str) :
    44 ∈ group3 (a :: b :: c :: d :: rest) := by
  rw [group3_cons4]
  simp

lemma groupDigits_chars {ds : Str} : ∀ c ∈ groupDigits ds, c ∈ ds ∨ c = 44 := by
  intro c hc
  unfold groupDigits at hc
  rw [List.mem_reverse] at hc
  rcases group3_chars _ c hc with h | h
  · rw [List.mem_reverse] at h
    exact .inl h
  · exact .inr h

lemma groupDigits_filter {ds : Str} (h : ∀ c ∈ ds, c ≠ 44) :
    (groupDigits ds).filter (fun c => decide (c ≠ 44)) = ds := by
  unfold groupDigits
  rw [List.filter_reverse, group3_filter, List.reverse_reverse]
  intro c hc
  rw [List.mem_reverse] at hc
  exact h c hc

lemma groupDigits_has44 {ds : Str} (h : 4 ≤ ds.length) :
    44 ∈ groupDigits ds := by
  unfold groupDigits
  rw [List.mem_reverse]
  have hlen : 4 ≤ ds.reverse.length := by rwa [List.length_reverse]
  match hrev : ds.reverse, hlen with
  | a :: b :: c :: d :: rest, _ => exact group3_has44 a b c d rest

lemma length_two_ex {l : Str} (h : l.length = 2) : ∃ a b, l = [a, b] := by
  cases l with
  | nil => simp at h
  | cons a t =>
    cases t with
    | nil => simp at h
    | cons b t2 =>
      cases t2 with
      | nil => exact ⟨a, b, rfl⟩
      | cons c t3 => simp at h

lemma fmtCurrency_shape (q : ℚ) : ∃ pre a b,
    fmtCurrency q = pre ++ [46, a, b] ∧ 48 ≤ a ∧ a ≤ 57 ∧ 48 ≤ b ∧
      b ≤ 57 ∧ 46 ∉ pre := by
  unfold fmtCurrency fmtFixed
  have h100 : (round (q * (10 : ℚ) ^ 2)).natAbs % 10 ^ 2 < 10 ^ 2 :=
    Nat.mod_lt _ (by norm_num)
  obtain ⟨a, b, hab⟩ := length_two_ex (padZero_length h100)
  have ha : 48 ≤ a ∧ a ≤ 57 :=
    @padZero_mem ((round (q * (10 : ℚ) ^ 2)).natAbs % 10 ^ 2) 2 a
      (by rw [hab]; simp)
  have hb : 48 ≤ b ∧ b ≤ 57 :=
    @padZero_mem ((round (q * (10 : ℚ) ^ 2)).natAbs % 10 ^ 2) 2 b
      (by rw [hab]; simp)
  refine ⟨(if round (q * (10 : ℚ) ^ 2) < 0 then [45] else []) ++
      groupDigits (natStr ((round (q * (10 : ℚ) ^ 2)).natAbs / 10 ^ 2)),
    a, b, ?_, ha.1, ha.2, hb.1, hb.2, ?_⟩
  · rw [if_neg (by norm_num : ¬(2 : Nat) = 0), hab]
  · intro hmem
    rw [List.mem_append] at hmem
    rcases hmem with hmem | hmem
    · split_ifs at hmem <;> simp_all
    · rcases groupDigits_chars _ hmem with h | h
      · have := natStr_mem _ h
        omega
      · omega

lemma intercalate_cons_of_ne_nil (sep x : Str) (ys : List Str) (h : ys ≠ []) :
    List.intercalate sep (x :: ys) = x ++ sep ++ List.intercalate sep ys := by
  cases ys with
  | nil => exact absurd rfl h
  | cons y ys2 => simp [List.intercalate]

lemma map_ext {α β : Type _} (f g : α → β) (h : ∀ a, f a = g a) :
    ∀ l : List α, l.map f = l.map g := by
  intro l
  induction l with
  | nil => rfl
  | cons a t ih => simp_all

lemma canonTable_idem (t : RawTable) :
    canonTable (canonTable t) = canonTable t := by
  unfold canonTable
  simp only [List.map_map]
  congr 1
  · exact map_ext _ _ (fun a => canon_idem a) t.header
  · refine map_ext _ _ ?_ t.rows
    intro r
    simp only [Function.comp]
    rw [List.map_map]
    exact map_ext _ _ (fun p => by simp [Function.comp, canon_idem]) r

lemma computeKPIs_ok {df : CleanData} {s : KPISummary}
    (h : computeKPIs df = .ok s) :
    s.total_revenue = total_revenue df.rows ∧
    s.total_transactions = total_transactions df.rows ∧
    s.avg_order_value = avg_order_value df.rows ∧
    s.total_items_sold = total_items_sold df.rows ∧
    revenue_by_product df = .ok s.top_products ∧
    s.top_cities = revenue_by_city df ∧
    s.by_month = revenue_by_month df.rows := by
  unfold computeKPIs at h
  cases hp : revenue_by_product df with
  | error e => rw [hp] at h; simp at h
  | ok tp =>
    rw [hp] at h
    injection h with h
    subst h
    exact ⟨rfl, rfl, rfl, rfl, rfl, rfl, rfl⟩

lemma dashboard_view_ok {df : CleanData} {x : Cell} {v : DashView}
    (h : dashboard_view df x = .ok v) :
    ∃ s, computeKPIs df = .ok s ∧ v.summary = s ∧
      v.filteredByMonth = filtered_revenue_by_month df x ∧
      filtered_revenue_by_product df x = .ok v.filteredTopProducts := by
  unfold dashboard_view at h
  cases h1 : computeKPIs df with
  | error e => rw [h1] at h; simp at h
  | ok s =>
    rw [h1] at h
    cases h2 : filtered_revenue_by_product df x with
    | error e => rw [h2] at h; simp at h
    | ok fp =>
      rw [h2] at h
      injection h with h
      subst h
      exact ⟨s, rfl, rfl, rfl, rfl⟩

lemma revenue_by_month_eq (rows : List Txn) :
    revenue_by_month rows =
      groupSumBy (fun a b => decide (a < b)) ymOf rows := by
  apply List.Sorted.insertionSort_eq
  refine (pairwise_groupSumBy decideLt_trans decideLt_conn ymOf rows).imp ?_
  intro a b hab
  exact le_of_lt (of_decide_eq_true hab)

lemma revenue_by_month_sorted (rows : List Txn) :
    (revenue_by_month rows).Pairwise (fun a b => a.1 < b.1) := by
  rw [revenue_by_month_eq]
  refine (pairwise_groupSumBy decideLt_trans decideLt_conn ymOf rows).imp ?_
  intro a b hab
  exact of_decide_eq_true hab

lemma mem_sortValuesDesc {l : List (Cell × ℚ)} {e : Cell × ℚ} :
    e ∈ sortValuesDesc l ↔ e ∈ l := by
  unfold sortValuesDesc
  rw [List.mem_reverse]
  exact (List.perm_insertionSort _ l).mem_iff

lemma sortValuesDesc_sorted (l : List (Cell × ℚ)) :
    (sortValuesDesc l).Pairwise (fun a b => b.2 ≤ a.2) := by
  unfold sortValuesDesc
  rw [List.pairwise_reverse]
  exact List.sorted_insertionSort _ l

lemma load_missingDate (t : RawTable)
    (h1 : dateCol ∉ (canonTable t).header) :
    load_and_clean_data t = .error .missingDate := by
  simp [load_and_clean_data, h1]

lemma load_missingItems (t : RawTable)
    (h1 : dateCol ∈ (canonTable t).header)
    (h2 : itemsCol ∉ (canonTable t).header) :
    load_and_clean_data t = .error .missingItems := by
  simp [load_and_clean_data, h1, h2]

lemma load_missingCost (t : RawTable)
    (h1 : dateCol ∈ (canonTable t).header)
    (h2 : itemsCol ∈ (canonTable t).header)
    (h3 : costCol ∉ (canonTable t).header) :
    load_and_clean_data t = .error .missingCost := by
  simp [load_and_clean_data, h1, h2, h3]

lemma load_ok (t : RawTable)
    (h1 : dateCol ∈ (canonTable t).header)
    (h2 : itemsCol ∈ (canonTable t).header)
    (h3 : costCol ∈ (canonTable t).header) :
    ∃ d, load_and_clean_data t = .ok d ∧
      d.rows = (canonTable t).rows.filterMap parseRow := by
  refine ⟨⟨productCol ∈ (canonTable t).header, cityCol ∈ (canonTable t).header,
    (canonTable t).rows.filterMap parseRow⟩, ?_, rfl⟩
  simp [load_and_clean_data, h1, h2, h3]

lemma load_rows {t : RawTable} {d : CleanData}
    (h : load_and_clean_data t = .ok d) :
    d.rows = (canonTable t).rows.filterMap parseRow := by
  by_cases h1 : dateCol ∈ (canonTable t).header
  · by_cases h2 : itemsCol ∈ (canonTable t).header
    · by_cases h3 : costCol ∈ (canonTable t).header
      · obtain ⟨d', hd', hrows⟩ := load_ok t h1 h2 h3
        rw [hd'] at h
        injection h with h
        rw [← h]
        exact hrows
      · rw [load_missingCost t h1 h2 h3] at h; cases h
    · rw [load_missingItems t h1 h2] at h; cases h
  · rw [load_missingDate t h1] at h; cases h

lemma load_isOk_iff (t : RawTable) :
    (dateCol ∈ (canonTable t).header ∧ itemsCol ∈ (canonTable t).header ∧
      costCol ∈ (canonTable t).header) ↔
    ∃ d, load_and_clean_data t = .ok d := by
  constructor
  · rintro ⟨h1, h2, h3⟩
    obtain ⟨d, hd, -⟩ := load_ok t h1 h2 h3
    exact ⟨d, hd⟩
  · rintro ⟨d, hd⟩
    by_cases h1 : dateCol ∈ (canonTable t).header
    · by_cases h2 : itemsCol ∈ (canonTable t).header
      · by_cases h3 : costCol ∈ (canonTable t).header
        · exact ⟨h1, h2, h3⟩
        · rw [load_missingCost t h1 h2 h3] at hd; cases hd
      · rw [load_missingItems t h1 h2] at hd; cases hd
    · rw [load_missingDate t h1] at hd; cases hd

lemma parseRow_isSome_iff (r : RawRecord) :
    (parseRow r).isSome = true ↔
      ((toDatetime (getCell r dateCol)).isSome = true ∧
       (toNumeric (getCell r itemsCol)).isSome = true ∧
       (toNumeric (getCell r costCol)).isSome = true) := by
  unfold parseRow
  cases hd : toDatetime (getCell r dateCol) <;>
    cases hq : toNumeric (getCell r itemsCol) <;>
      cases hr : toNumeric (getCell r costCol) <;> simp

lemma parseRow_some_fields {r : RawRecord} {tx : Txn}
    (h : parseRow r = some tx) :
    toDatetime (getCell r dateCol) = some tx.date ∧
    toNumeric (getCell r itemsCol) = some tx.quantity ∧
    toNumeric (getCell r costCol) = some tx.revenue ∧
    tx.product = getCell r productCol ∧ tx.city = getCell r cityCol := by
  unfold parseRow at h
  cases hd : toDatetime (getCell r dateCol) with
  | none => rw [hd] at h; cases h
  | some dd =>
    rw [hd] at h
    cases hq : toNumeric (getCell r itemsCol) with
    | none => rw [hq] at h; cases h
    | some qq =>
      rw [hq] at h
      cases hr : toNumeric (getCell r costCol) with
      | none => rw [hr] at h; cases h
      | some rr =>
        rw [hr] at h
        injection h with h
        subst h
        exact ⟨rfl, rfl, rfl, rfl, rfl⟩

set_option maxRecDepth 40000

attribute [local semireducible] Rat.add Rat.sub Rat.mul Rat.inv

/-- C3: for every nonempty transaction set, `avg_order_value` equals
`total_revenue / total_transactions`; for the empty set the pandas mean
yields the NaN sentinel (`none`) instead of faulting on division by
zero. -/
theorem C3_avg_order_value (rows : List Txn) :
    (rows ≠ [] → avg_order_value rows =
      some (total_revenue rows / (total_transactions rows : ℚ))) ∧
    (rows = [] → avg_order_value rows = none) := by
  constructor
  · intro h
    unfold avg_order_value seriesMean total_revenue total_transactions
    rw [List.length_map,
      if_neg (fun hh => h (List.length_eq_zero.mp hh))]
  · rintro rfl
    rfl

/-- Witness for C3 at the spec's example rows and at the empty set. -/
theorem C3_witness :
    avg_order_value [txA, txB] =
      some (total_revenue [txA, txB] / (total_transactions [txA, txB] : ℚ)) ∧
    avg_order_value [] = none :=
  ⟨(C3_avg_order_value [txA, txB]).1 (by decide),
   (C3_avg_order_value []).2 rfl⟩

/-- C8: the column-name canonicalization is idempotent, so normalizing
a table whose names are already canonical gives the same result as the
original, and any two tables with the same canonicalized names load to
identical transactions. -/
theorem C8_canon_idempotent :
    (∀ s : Str, canon (canon s) = canon s) ∧
    (∀ t : RawTable,
      load_and_clean_data (canonTable t) = load_and_clean_data t) ∧
    (∀ t₁ t₂ : RawTable, canonTable t₁ = canonTable t₂ →
      load_and_clean_data t₁ = load_and_clean_data t₂) := by
  refine ⟨canon_idem, ?_, ?_⟩
  · intro t
    unfold load_and_clean_data
    rw [canonTable_idem]
  · intro t₁ t₂ h
    unfold load_and_clean_data
    rw [h]

/-- Witness for C8: the worked-example table with messy column names
loads exactly as the canonical-name table. -/
theorem C8_witness :
    load_and_clean_data messyTable = load_and_clean_data exTable :=
  C8_canon_idempotent.2.2 messyTable exTable (by decide)

/-- C4: normalization fails fatally — naming the missing field — iff
one of the canonicalized required columns `date`, `total_items`,
`total_cost` is absent; when all three are present, loading always
succeeds and keeps exactly the rows whose three required fields all
parse, each row kept or dropped as a whole. -/
theorem C4_schema_fatal_rows_dropped (t : RawTable) :
    ((dateCol ∈ (canonTable t).header ∧ itemsCol ∈ (canonTable t).header ∧
        costCol ∈ (canonTable t).header) ↔
      ∃ d, load_and_clean_data t = .ok d) ∧
    (dateCol ∉ (canonTable t).header →
      load_and_clean_data t = .error .missingDate) ∧
    (dateCol ∈ (canonTable t).header → itemsCol ∉ (canonTable t).header →
      load_and_clean_data t = .error .missingItems) ∧
    (dateCol ∈ (canonTable t).header → itemsCol ∈ (canonTable t).header →
      costCol ∉ (canonTable t).header →
      load_and_clean_data t = .error .missingCost) ∧
    (∀ d, load_and_clean_data t = .ok d →
      d.rows = (canonTable t).rows.filterMap parseRow) ∧
    (∀ r : RawRecord, (parseRow r).isSome = true ↔
      ((toDatetime (getCell r dateCol)).isSome = true ∧
       (toNumeric (getCell r itemsCol)).isSome = true ∧
       (toNumeric (getCell r costCol)).isSome = true)) :=
  ⟨load_isOk_iff t, load_missingDate t, load_missingItems t,
   load_missingCost t, fun _ h => load_rows h, parseRow_isSome_iff⟩

/-- Witness for C4: the worked-example table loads, a table without a
date column halts with the missing-date error. -/
theorem C4_witness :
    (∃ d, load_and_clean_data exTable = .ok d) ∧
    load_and_clean_data noDateTable = .error .missingDate :=
  ⟨(C4_schema_fatal_rows_dropped exTable).1.mp
      ⟨by decide, by decide, by decide⟩,
   (C4_schema_fatal_rows_dropped noDateTable).2.1 (by decide)⟩

/-- C10: the required fields are recognized only under the exact
canonical names `date`, `total_items`, `total_cost` — a header carrying
an item-count or cost column under any other name still halts with the
fatal missing-column error — and every constructed transaction takes
its `date`, `quantity` and `revenue` from exactly those columns. -/
theorem C10_exact_required_names (t : RawTable) :
    (dateCol ∈ (canonTable t).header → itemsCol ∉ (canonTable t).header →
      load_and_clean_data t = .error .missingItems) ∧
    (dateCol ∈ (canonTable t).header → itemsCol ∈ (canonTable t).header →
      costCol ∉ (canonTable t).header →
      load_and_clean_data t = .error .missingCost) ∧
    (∀ d, load_and_clean_data t = .ok d → ∀ tx ∈ d.rows,
      ∃ r ∈ (canonTable t).rows,
        toDatetime (getCell r dateCol) = some tx.date ∧
        toNumeric (getCell r itemsCol) = some tx.quantity ∧
        toNumeric (getCell r costCol) = some tx.revenue) := by
  refine ⟨load_missingItems t, load_missingCost t, ?_⟩
  intro d hd tx htx
  rw [load_rows hd, List.mem_filterMap] at htx
  obtain ⟨r, hr, hpr⟩ := htx
  obtain ⟨h1, h2, h3, -, -⟩ := parseRow_some_fields hpr
  exact ⟨r, hr, h1, h2, h3⟩

/-- Witness for C10: a table whose columns are named `items` and `cost`
halts with the missing-items error even though the data is present. -/
theorem C10_witness :
    load_and_clean_data noItemsTable = .error .missingItems :=
  (C10_exact_required_names noItemsTable).1 (by decide) (by decide)

/-- C1 as stated is false at this input: on a cleaned table without a
`product` column the module-level aggregation fails with
`KeyError("product")` instead of succeeding with the product top-N
omitted. -/
theorem C1_counterexample :
    revenue_by_product noProductClean = .error (.keyError productCol) ∧
    computeKPIs noProductClean = .error (.keyError productCol) := by
  constructor <;> decide

/-- C1 amended: the omission behaviour holds for `city` — with no city
column the aggregation still succeeds and `top_cities` is omitted
(`none`) — but an absent `product` column makes the whole aggregation
fail with `KeyError("product")`. -/
theorem C1_optional_columns (df : CleanData) :
    (df.hasCity = false → revenue_by_city df = none) ∧
    (df.hasCity = false → df.hasProduct = true →
      ∃ s, computeKPIs df = .ok s ∧ s.top_cities = none) ∧
    (df.hasProduct = false →
      computeKPIs df = .error (.keyError productCol)) := by
  refine ⟨?_, ?_, ?_⟩
  · intro h
    unfold revenue_by_city
    rw [h]
    rfl
  · intro hc hp
    have h1 : revenue_by_product df =
        .ok ((sortValuesDesc (groupSumBy cellLt Txn.product df.rows)).take 5) := by
      unfold revenue_by_product
      rw [hp]
      rfl
    have h2 : revenue_by_city df = none := by
      unfold revenue_by_city
      rw [hc]
      rfl
    refine ⟨⟨total_revenue df.rows, total_transactions df.rows,
      avg_order_value df.rows, total_items_sold df.rows,
      (sortValuesDesc (groupSumBy cellLt Txn.product df.rows)).take 5,
      revenue_by_city df, revenue_by_month df.rows⟩, ?_, ?_⟩
    · unfold computeKPIs
      rw [h1]
    · exact h2
  · intro h
    unfold computeKPIs revenue_by_product
    rw [h]
    rfl

/-- Witness for C1 amended, at a table without a city column and at a
table without a product column. -/
theorem C1_witness :
    revenue_by_city noCityClean = none ∧
    (∃ s, computeKPIs noCityClean = .ok s ∧ s.top_cities = none) ∧
    computeKPIs noProductClean = .error (.keyError productCol) :=
  ⟨(C1_optional_columns noCityClean).1 rfl,
   (C1_optional_columns noCityClean).2.1 rfl rfl,
   (C1_optional_columns noProductClean).2.2 rfl⟩

/-- C5: the scalar KPIs are the revenue sum, the row count and the
quantity sum, with no cross-contamination between the quantity and
revenue sums; the spec's two-row example yields 50/2/25/5 through the
full pipeline, and the empty set yields zero/empty results, not an
error. -/
theorem C5_scalar_kpis :
    (∀ rows : List Txn, total_revenue rows = (rows.map Txn.revenue).sum ∧
      total_transactions rows = rows.length ∧
      total_items_sold rows = (rows.map Txn.quantity).sum) ∧
    (∀ (rows : List Txn) (f : Txn → ℚ),
      total_revenue (rows.map (fun t => { t with quantity := f t })) =
        total_revenue rows ∧
      total_items_sold (rows.map (fun t => { t with revenue := f t })) =
        total_items_sold rows) ∧
    (∃ d, load_and_clean_data exTable = .ok d ∧
      total_revenue d.rows = 50 ∧ total_transactions d.rows = 2 ∧
      avg_order_value d.rows = some 25 ∧ total_items_sold d.rows = 5) ∧
    (total_revenue [] = 0 ∧ total_transactions [] = 0 ∧
      total_items_sold [] = 0 ∧ avg_order_value [] = none ∧
      revenue_by_month [] = [] ∧
      computeKPIs ⟨true, true, []⟩ = .ok ⟨0, 0, none, 0, [], some [], []⟩) := by
  refine ⟨fun rows => ⟨rfl, rfl, rfl⟩, ?_, ?_, ?_⟩
  · intro rows f
    constructor
    · unfold total_revenue
      rw [List.map_map]
      rfl
    · unfold total_items_sold
      rw [List.map_map]
      rfl
  · exact ⟨⟨true, true, [txA, txB]⟩, by decide, by decide, by decide,
      by decide, by decide⟩
  · exact ⟨rfl, rfl, rfl, rfl, rfl, by decide⟩

lemma top5_values (key : Txn → Cell) (rows : List Txn) :
    ∀ e ∈ (sortValuesDesc (groupSumBy cellLt key rows)).take 5,
      e.2 = ((rows.filter (fun t => decide (key t = e.1))).map
        Txn.revenue).sum := by
  intro e he
  have h1 : e ∈ sortValuesDesc (groupSumBy cellLt key rows) :=
    (List.take_sublist 5 _).subset he
  rw [mem_sortValuesDesc] at h1
  obtain ⟨k, v⟩ := e
  have h2 := snd_of_mem_groupSumBy cellLt_trans cellLt_conn cellLt_irrefl
    key h1
  rw [revSumBy_eq_filter_sum] at h2
  exact h2

lemma top5_sorted (key : Txn → Cell) (rows : List Txn) :
    ((sortValuesDesc (groupSumBy cellLt key rows)).take 5).Pairwise
      (fun a b => b.2 ≤ a.2) :=
  (List.Pairwise.sublist (List.take_sublist 5 _) (sortValuesDesc_sorted _))

/-- C6 as stated is false at this input: products B and C tie at
revenue 20 and the grouped series lists B before C, but
`sort_values(ascending=False)` — an ascending argsort reversed — emits
C before B, so tie order is not the stable grouped order. -/
theorem C6_counterexample :
    groupSumBy cellLt Txn.product c6df.rows =
      [(prodA, 30), (prodB, 20), (prodC, 20)] ∧
    revenue_by_product c6df = .ok [(prodA, 30), (prodC, 20), (prodB, 20)] ∧
    ¬ [(prodB, (20 : ℚ)), (prodC, 20)].Sublist
        [(prodA, (30 : ℚ)), (prodC, 20), (prodB, 20)] := by
  refine ⟨by decide, by decide, by decide⟩

/-- C6 amended: both top-N aggregations return at most five entries,
sorted descending by summed revenue, each entry's value being the
revenue sum of its group; ties are allowed, but their relative order is
not the stable grouped order (the quicksort pandas uses is documented
as not stable, and the descending reversal flips whatever tie order the
ascending pass produced). -/
theorem C6_top5 (df : CleanData) :
    (∀ tp, revenue_by_product df = .ok tp →
      tp = (sortValuesDesc (groupSumBy cellLt Txn.product df.rows)).take 5 ∧
      tp.length ≤ 5 ∧ tp.Pairwise (fun a b => b.2 ≤ a.2) ∧
      ∀ e ∈ tp, e.2 = ((df.rows.filter
        (fun t => decide (t.product = e.1))).map Txn.revenue).sum) ∧
    (∀ tc, revenue_by_city df = some tc →
      tc = (sortValuesDesc (groupSumBy cellLt Txn.city df.rows)).take 5 ∧
      tc.length ≤ 5 ∧ tc.Pairwise (fun a b => b.2 ≤ a.2) ∧
      ∀ e ∈ tc, e.2 = ((df.rows.filter
        (fun t => decide (t.city = e.1))).map Txn.revenue).sum) := by
  constructor
  · intro tp htp
    unfold revenue_by_product at htp
    by_cases hp : df.hasProduct
    · rw [if_pos hp] at htp
      injection htp with htp
      subst htp
      exact ⟨rfl, List.length_take_le 5 _, top5_sorted _ _, top5_values _ _⟩
    · rw [if_neg hp] at htp
      cases htp
  · intro tc htc
    unfold revenue_by_city at htc
    by_cases hc : df.hasCity
    · rw [if_pos hc] at htc
      injection htc with htc
      subst htc
      exact ⟨rfl, List.length_take_le 5 _, top5_sorted _ _, top5_values _ _⟩
    · rw [if_neg hc] at htc
      cases htc

/-- Witness for C6 amended at a three-row table whose products B and C
tie at revenue 20; the tie appears in reversed order, still sorted
descending with per-group sums. -/
theorem C6_witness :
    [(prodA, (30 : ℚ)), (prodC, 20), (prodB, 20)].length ≤ 5 ∧
    [(prodA, (30 : ℚ)), (prodC, 20), (prodB, 20)].Pairwise
      (fun a b => b.2 ≤ a.2) ∧
    ((prodC, (20 : ℚ)).2 = ((c6df.rows.filter
      (fun t => decide (t.product = (prodC, (20 : ℚ)).1))).map
        Txn.revenue).sum) :=
  ⟨((C6_top5 c6df).1 [(prodA, 30), (prodC, 20), (prodB, 20)]
      (by decide)).2.1,
   ((C6_top5 c6df).1 [(prodA, 30), (prodC, 20), (prodB, 20)]
      (by decide)).2.2.1,
   ((C6_top5 c6df).1 [(prodA, 30), (prodC, 20), (prodB, 20)]
      (by decide)).2.2.2 (prodC, 20) (by decide)⟩

/-- C7: the monthly revenue series is strictly ascending in its
`YYYY-MM` period key, its keys are exactly the distinct months
occurring in the set, each value is that month's revenue sum, and the
period key is a pure function of the date truncated to month. -/
theorem C7_revenue_by_period (rows : List Txn) :
    (revenue_by_month rows).Pairwise (fun a b => a.1 < b.1) ∧
    (∀ k : Str, k ∈ (revenue_by_month rows).map Prod.fst ↔
      ∃ t ∈ rows, ymOf t = k) ∧
    (∀ e ∈ revenue_by_month rows,
      e.2 = ((rows.filter (fun t => decide (ymOf t = e.1))).map
        Txn.revenue).sum) ∧
    (∀ d₁ d₂ : Date, d₁.year = d₂.year → d₁.month = d₂.month →
      year_month d₁ = year_month d₂) ∧
    year_month ⟨2024, 1, 15⟩ = strLit ("2024-01") := by
  refine ⟨revenue_by_month_sorted rows, ?_, ?_, ?_, by decide⟩
  · intro k
    rw [revenue_by_month_eq, mem_fst_groupSumBy, List.mem_map]
  · intro e he
    rw [revenue_by_month_eq] at he
    obtain ⟨k, v⟩ := e
    have h2 := snd_of_mem_groupSumBy decideLt_trans decideLt_conn
      (fun a => decideLt_irrefl a) ymOf he
    rw [revSumBy_eq_filter_sum] at h2
    exact h2
  · intro d1 d2 hy hm
    unfold year_month
    rw [hy, hm]

/-- Witness for C7: the two example rows share month 2024-01 with
summed revenue 50, and the period key ignores the day of month. -/
theorem C7_witness :
    (strLit ("2024-01"), (50 : ℚ)).2 =
      (([txA, txB].filter (fun t =>
        decide (ymOf t = (strLit ("2024-01"), (50 : ℚ)).1))).map
          Txn.revenue).sum ∧
    year_month ⟨2024, 1, 1⟩ = year_month ⟨2024, 1, 31⟩ :=
  ⟨(C7_revenue_by_period [txA, txB]).2.2.1 (strLit ("2024-01"), 50)
      (by decide),
   (C7_revenue_by_period []).2.2.2.1 ⟨2024, 1, 1⟩ ⟨2024, 1, 31⟩ rfl rfl⟩

/-- C2 as stated is false at this input: after selecting city `X` the
dashboard's KPI row still shows the full-dataset total revenue 50, while
aggregating only the `city == X` subset gives 30. -/
theorem C2_counterexample :
    (dashboard_view c2df cityX).toOption.map
      (fun v => v.summary.total_revenue) = some 50 ∧
    total_revenue (df_filtered c2df cityX) = 30 ∧ ((50 : ℚ) ≠ 30) :=
  ⟨by decide, by decide, by norm_num⟩

/-- C2 amended: a filter selection recomputes only the monthly-revenue
and top-products series, and those do equal aggregating exactly the
`city == X` subset; the scalar KPIs and `top_cities` keep their
full-dataset values. -/
theorem C2_filter_scope (df : CleanData) (x : Cell) (v : DashView)
    (hv : dashboard_view df x = .ok v) :
    v.filteredByMonth = revenue_by_month (df_filtered df x) ∧
    filtered_revenue_by_product df x = .ok v.filteredTopProducts ∧
    v.summary.total_revenue = total_revenue df.rows ∧
    v.summary.total_transactions = total_transactions df.rows ∧
    v.summary.avg_order_value = avg_order_value df.rows ∧
    v.summary.total_items_sold = total_items_sold df.rows ∧
    v.summary.top_cities = revenue_by_city df ∧
    (x ≠ allChoice → df.hasCity = true →
      df_filtered df x = df.rows.filter (fun t => decide (t.city = x))) := by
  obtain ⟨s, hs, hvs, hfm, hfp⟩ := dashboard_view_ok hv
  obtain ⟨h1, h2, h3, h4, -, h6, -⟩ := computeKPIs_ok hs
  refine ⟨?_, hfp, ?_, ?_, ?_, ?_, ?_, ?_⟩
  · rw [hfm]; rfl
  · rw [hvs, h1]
  · rw [hvs, h2]
  · rw [hvs, h3]
  · rw [hvs, h4]
  · rw [hvs, h6]
  · intro hx hc
    unfold df_filtered
    rw [if_pos ⟨hx, hc⟩]

/-- Witness for C2 amended at the two-city example with city `X`
selected. -/
theorem C2_witness :
    c2view.filteredByMonth = revenue_by_month (df_filtered c2df cityX) ∧
    c2view.summary.total_revenue = total_revenue c2df.rows :=
  ⟨(C2_filter_scope c2df cityX c2view (by decide)).1,
   (C2_filter_scope c2df cityX c2view (by decide)).2.2.1⟩

lemma intercalate_extract (sep x : Str) :
    ∀ (xs ys : List Str), ys ≠ [] →
      ∃ pre post, List.intercalate sep (xs ++ x :: ys) =
        pre ++ x ++ sep ++ post := by
  intro xs
  induction xs with
  | nil =>
    intro ys hys
    refine ⟨[], List.intercalate sep ys, ?_⟩
    rw [List.nil_append, intercalate_cons_of_ne_nil sep x ys hys]
    simp [List.append_assoc]
  | cons z zs ih =>
    intro ys hys
    obtain ⟨pre, post, hp⟩ := ih ys hys
    have hne : zs ++ x :: ys ≠ [] := by simp
    refine ⟨z ++ sep ++ pre, post, ?_⟩
    rw [List.cons_append, intercalate_cons_of_ne_nil sep z _ hne, hp]
    simp [List.append_assoc]

/-- C9 as stated is false at this input: with 1000 transactions the
summary text renders the count as `1000`, with no thousands
separator. -/
theorem C9_counterexample :
    strLit ("Total transactions: 1000") ∈
      (build_kpi_summary_text s1000).splitOn 10 ∧
    strLit ("Total transactions: 1,000") ∉
      (build_kpi_summary_text s1000).splitOn 10 := by
  constructor <;> decide

/-- C9 amended: the formatter is a deterministic pure function, every
currency value is rendered with exactly two decimal places, and of the
two counts only `total_items_sold` (rendered via `:,.0f`) carries
thousands separators — `total_transactions` is rendered as a plain
integer. -/
theorem C9_formatter (s₁ s₂ : KPISummary) :
    (s₁ = s₂ → build_kpi_summary_text s₁ = build_kpi_summary_text s₂) ∧
    (∀ q : ℚ, ∃ pre a b, fmtCurrency q = pre ++ [46, a, b] ∧
      48 ≤ a ∧ a ≤ 57 ∧ 48 ≤ b ∧ b ≤ 57 ∧ 46 ∉ pre) ∧
    (∃ pre post, build_kpi_summary_text s₁ =
      pre ++ (strLit ("Total revenue: $") ++ fmtCurrency s₁.total_revenue) ++
        [10] ++ post) ∧
    (∃ pre post, build_kpi_summary_text s₁ =
      pre ++ (strLit ("Total items sold: ") ++
        fmtCount s₁.total_items_sold) ++ [10] ++ post) ∧
    (∃ pre post, build_kpi_summary_text s₁ =
      pre ++ (strLit ("Total transactions: ") ++
        natStr s₁.total_transactions) ++ [10] ++ post) ∧
    (∀ ds : Str, (∀ c ∈ ds, c ≠ 44) →
      (groupDigits ds).filter (fun c => decide (c ≠ 44)) = ds) ∧
    (∀ n : Nat, 1000 ≤ n → 44 ∈ fmtCount (n : ℚ)) := by
  refine ⟨fun h => by rw [h], fmtCurrency_shape, ?_, ?_, ?_,
    fun ds h => groupDigits_filter h, ?_⟩
  · unfold build_kpi_summary_text
    exact intercalate_extract [10]
      (strLit ("Total revenue: $") ++ fmtCurrency s₁.total_revenue)
      [strLit ("=== High-Level Sales Summary ===")] _ (by simp)
  · unfold build_kpi_summary_text
    exact intercalate_extract [10]
      (strLit ("Total items sold: ") ++ fmtCount s₁.total_items_sold)
      [strLit ("=== High-Level Sales Summary ==="),
       strLit ("Total revenue: $") ++ fmtCurrency s₁.total_revenue,
       strLit ("Total transactions: ") ++ natStr s₁.total_transactions,
       strLit ("Average order value: $") ++ fmtMean s₁.avg_order_value]
      _ (by simp)
  · unfold build_kpi_summary_text
    exact intercalate_extract [10]
      (strLit ("Total transactions: ") ++ natStr s₁.total_transactions)
      [strLit ("=== High-Level Sales Summary ==="),
       strLit ("Total revenue: $") ++ fmtCurrency s₁.total_revenue]
      _ (by simp)
  · intro n hn
    unfold fmtCount fmtFixed
    have hr : round ((n : ℚ) * (10 : ℚ) ^ 0) = (n : ℤ) := by
      rw [pow_zero, mul_one, round_natCast]
    rw [hr, if_neg (by simp), if_pos rfl]
    have hd : ((n : ℤ).natAbs / 10 ^ 0) = n := by simp
    rw [hd]
    simp only [List.nil_append, List.append_nil]
    apply groupDigits_has44
    unfold natStr padZero
    rw [List.length_append, List.length_replicate]
    have hnz : n ≠ 0 := by omega
    have hlen : 4 ≤ (natDigits n).length := by
      rw [natDigits_eq, List.length_reverse, List.length_map,
        Nat.digits_len 10 n (by norm_num) hnz]
      have h3 : 3 ≤ Nat.log 10 n :=
        (Nat.pow_le_iff_le_log (by norm_num) hnz).mp
          (le_trans (by norm_num) hn)
      omega
    omega

/-- Witness for C9 amended: determinism at a concrete summary, comma
removal on a concrete digit string, and a separator present in the
grouped rendering of 1234. -/
theorem C9_witness :
    build_kpi_summary_text s1000 = build_kpi_summary_text s1000 ∧
    (groupDigits (strLit ("1234"))).filter (fun c => decide (c ≠ 44)) =
      strLit ("1234") ∧
    44 ∈ fmtCount ((1234 : ℕ) : ℚ) :=
  ⟨(C9_formatter s1000 s1000).1 rfl,
   (C9_formatter s1000 s1000).2.2.2.2.2.1 (strLit ("1234")) (by decide),
   (C9_formatter s1000 s1000).2.2.2.2.2.2 1234 (by norm_num)⟩

end Sales
